import Mathlib

/-!
Verification of the `Variable` runtime type-enforcement container
(src/main.py).  A `Variable` binds a Python type object (`self.type`,
fixed at construction) to a mutable slot `self.data`, which is
initialised to `None` and serves double duty as the "unset" sentinel.
`__lshift__` (`self << value`) assigns a raw value or copies from
another `Variable`; `__rshift__` (`self >> other`) transfers the
current value into another `Variable` of the same declared type;
`__str__` renders the value or an uninitialised placeholder.

The embedding models a small universe of Python runtime values that is
closed under putting a `Variable` itself in the slot (needed because
`__lshift__` branches on `isinstance(value, Variable)`), together with
Python's `isinstance` on that universe — in particular `bool` is a
subclass of `int` in Python, so `isinstance(True, int)` holds.

Python's `TypeError` and `ValueError` (the spec's `TypeMismatchError`
and `UninitializedError`) are modelled as an error type; each method is
translated to a function returning the state of every cell it touches
when the method exits, normally or by raise, plus the raised error if
any.  In the source every `raise` occurs before any field write, which
is what the returned-state-at-raise translation records.
-/

namespace TypeFlow

/-- The Python type objects the demo universe needs: `int`, `str`,
`bool`, `NoneType`, and the class `Variable` itself. -/
inductive PyType : Type where
  | intT
  | strT
  | boolT
  | noneT
  | variableT
  deriving DecidableEq, Repr

mutual

/-- Python runtime values: `None`, booleans, integers, strings, and
`Variable` instances (a `Variable` is itself a first-class value that
can be passed to `__lshift__`). -/
inductive PyVal : Type where
  | vnone : PyVal
  | vbool : Bool → PyVal
  | vint : Int → PyVal
  | vstr : String → PyVal
  | vcell : Variable → PyVal

/-- `class Variable`: the field `type` (the declared type, set in
`__init__` and never written again) and the field `data` (initialised
to `None`; `None` is the unset sentinel). -/
inductive Variable : Type where
  | mk : PyType → PyVal → Variable

end

/-- Field access `self.type`. -/
def Variable.type : Variable → PyType
  | .mk t _ => t

/-- Field access `self.data`. -/
def Variable.data : Variable → PyVal
  | .mk _ d => d

@[simp]
theorem Variable.type_mk (t : PyType) (d : PyVal) : (Variable.mk t d).type = t := rfl

@[simp]
theorem Variable.data_mk (t : PyType) (d : PyVal) : (Variable.mk t d).data = d := rfl

/-- Python's `value is None` test. -/
def PyVal.isNone : PyVal → Bool
  | .vnone => true
  | _ => false

/-- `isinstance(value, Variable)`: whether the value is a `Variable`
instance. -/
def PyVal.isCell : PyVal → Bool
  | .vcell _ => true
  | _ => false

/-- `type(value)`: the exact runtime class of a value. -/
def PyVal.typeOf : PyVal → PyType
  | .vnone => .noneT
  | .vbool _ => .boolT
  | .vint _ => .intT
  | .vstr _ => .strT
  | .vcell _ => .variableT

/-- Python's `isinstance(value, t)` on the modelled universe.  It is
subclass-lenient: `bool` is a subclass of `int` in Python, so a `bool`
value is an instance of `int`.  None of the other modelled classes are
related by inheritance. -/
def isinstance (v : PyVal) (t : PyType) : Bool :=
  match v, t with
  | .vnone, .noneT => true
  | .vbool _, .boolT => true
  | .vbool _, .intT => true
  | .vint _, .intT => true
  | .vstr _, .strT => true
  | .vcell _, .variableT => true
  | _, _ => false

/-- The exceptions raised by the source: Python `TypeError` (the
spec's `TypeMismatchError`) and Python `ValueError` (the spec's
`UninitializedError`). -/
inductive PyError : Type where
  | typeError
  | valueError
  deriving DecidableEq, Repr

/-- `t.__name__` for the modelled type objects. -/
def PyType.name : PyType → String
  | .intT => "int"
  | .strT => "str"
  | .boolT => "bool"
  | .noneT => "NoneType"
  | .variableT => "Variable"

/-- `Variable.__init__(data_type)`: the source checks
`isinstance(data_type, type)` and raises `TypeError` otherwise; in the
embedding the argument is a type object by construction, so that raise
cannot fire.  The cell starts with `self.data = None`. -/
def construct (t : PyType) : Variable :=
  Variable.mk t .vnone

/-- `Variable.__rshift__(self, other)` — `self >> other`, the transfer
operation.  Returns the pair `(self, other)` as they stand when the
method exits together with the raised error, if any.  The source:
`isinstance(other, Variable)` (a type-level given here), then raise
`TypeError` on `other.type != self.type`, then raise `ValueError` on
`self.data is None`, and only then `other.data = self.data`; every
raise happens before the single field write. -/
def rshift (self other : Variable) : (Variable × Variable) × Option PyError :=
  if other.type ≠ self.type then
    ((self, other), some .typeError)
  else if self.data.isNone then
    ((self, other), some .valueError)
  else
    ((self, Variable.mk other.type self.data), none)

/-- `Variable.__lshift__(self, value)` — `self << value`, the assign
operation.  Returns the pair `(self, value)` as they stand when the
method exits together with the raised error, if any.  The source: if
`isinstance(value, Variable)`, raise `TypeError` on
`value.type != expected_type` else `self.data = value.data`; otherwise
raise `TypeError` on `not isinstance(value, expected_type)` else
`self.data = value`.  The argument is never written. -/
def lshift (self : Variable) (value : PyVal) : (Variable × PyVal) × Option PyError :=
  let expected := self.type
  match value with
  | .vcell v =>
    if v.type ≠ expected then
      ((self, .vcell v), some .typeError)
    else
      ((Variable.mk self.type v.data, .vcell v), none)
  | v =>
    if ¬ isinstance v expected then
      ((self, v), some .typeError)
    else
      ((Variable.mk self.type v, v), none)

mutual

/-- Python's `str(value)` on the modelled universe.  `str` of a
`Variable` instance dispatches to `Variable.__str__`. -/
def PyVal.str : PyVal → String
  | .vnone => "None"
  | .vbool b => if b then "True" else "False"
  | .vint n => toString n
  | .vstr s => s
  | .vcell c => Variable.str c

/-- `Variable.__str__`: `str(self.data)` if `self.data is not None`,
otherwise the placeholder naming the declared type. -/
def Variable.str : Variable → String
  | .mk t d =>
    if d.isNone then "Uninitialized variable of type " ++ t.name
    else PyVal.str d

end

/-- The operations that can change a given cell's state: being the
left operand of `<<` (assign), or being the right operand of `>>`
(receiving a transfer from a source cell). -/
inductive Op : Type where
  | assignOp : PyVal → Op
  | recvOp : Variable → Op

/-- Apply one operation to a cell.  A raised exception propagates to
the caller and the cell keeps the state it had when the method exited,
which the translation of each method returns. -/
def applyOp (self : Variable) : Op → Variable
  | .assignOp v => (lshift self v).1.1
  | .recvOp src => (rshift src self).1.2

/-- Run a sequence of operations against a cell, left to right. -/
def runOps (self : Variable) : List Op → Variable
  | [] => self
  | op :: rest => runOps (applyOp self op) rest

/-- The declared-type invariant of a cell: the slot is unset, or holds
an instance (in the `isinstance` sense) of the declared type. -/
def typeInv (v : Variable) : Bool :=
  v.data.isNone || isinstance v.data v.type

/-- An operation is well-formed when every cell it carries satisfies
the declared-type invariant. -/
def opOK : Op → Bool
  | .assignOp (.vcell c) => typeInv c
  | .assignOp _ => true
  | .recvOp src => typeInv src

/-! ### Invariant preservation -/

/-- One well-formed operation preserves the declared-type invariant. -/
theorem typeInv_applyOp (self : Variable) (op : Op)
    (h1 : typeInv self = true) (h2 : opOK op = true) :
    typeInv (applyOp self op) = true := by
  obtain ⟨st, sd⟩ := self
  cases op with
  | assignOp v =>
    cases v with
    | vcell c =>
      obtain ⟨ct, cd⟩ := c
      by_cases hc : ct = st
      · subst hc
        simpa [applyOp, lshift, typeInv, opOK] using h2
      · simpa [applyOp, lshift, hc, typeInv] using h1
    | vnone =>
      by_cases hi : isinstance .vnone st = true
      · simp [applyOp, lshift, hi, typeInv]
      · simpa [applyOp, lshift, hi, typeInv] using h1
    | vbool b =>
      by_cases hi : isinstance (.vbool b) st = true
      · simp [applyOp, lshift, hi, typeInv]
      · simpa [applyOp, lshift, hi, typeInv] using h1
    | vint n =>
      by_cases hi : isinstance (.vint n) st = true
      · simp [applyOp, lshift, hi, typeInv]
      · simpa [applyOp, lshift, hi, typeInv] using h1
    | vstr s =>
      by_cases hi : isinstance (.vstr s) st = true
      · simp [applyOp, lshift, hi, typeInv]
      · simpa [applyOp, lshift, hi, typeInv] using h1
  | recvOp src =>
    obtain ⟨rt, rd⟩ := src
    by_cases ht : st = rt
    · subst ht
      by_cases hn : rd.isNone = true
      · simpa [applyOp, rshift, hn, typeInv] using h1
      · simpa [applyOp, rshift, hn, typeInv, opOK] using h2
    · simpa [applyOp, rshift, ht, typeInv] using h1

/-- A run of well-formed operations preserves the declared-type
invariant. -/
theorem typeInv_runOps (self : Variable) (ops : List Op)
    (h1 : typeInv self = true) (h2 : ops.all opOK = true) :
    typeInv (runOps self ops) = true := by
  induction ops generalizing self with
  | nil => exact h1
  | cons op rest ih =>
    simp only [List.all_cons, Bool.and_eq_true] at h2
    exact ih (applyOp self op) (typeInv_applyOp self op h1 h2.1) h2.2

/-! ### Claim theorems -/

/-- C1 counterexample: the claim that a raw assignment fails exactly
when the value's runtime type is not exactly the declared type is
false: `True` has runtime type `bool`, not `int`, yet
`Variable(int) << True` succeeds and stores it, because `isinstance`
is subclass-lenient and `bool` is a subclass of `int` in Python. -/
theorem lshift_accepts_bool_for_int :
    (PyVal.vbool true).typeOf ≠ (Variable.mk .intT .vnone).type ∧
    lshift (Variable.mk .intT .vnone) (.vbool true) =
      ((Variable.mk .intT (.vbool true), .vbool true), none) :=
  ⟨by decide, rfl⟩

/-- C1 (amended): for every cell and every raw (non-cell) value,
assignment raises `TypeError` exactly when the value is not an
instance of the declared type in the `isinstance` sense (subclasses
accepted); when the value is an instance, the value is stored and the
declared type is unchanged. -/
theorem lshift_raw_isinstance_check (self : Variable) (v : PyVal)
    (h : v.isCell = false) :
    lshift self v =
      if isinstance v self.type then ((Variable.mk self.type v, v), none)
      else ((self, v), some .typeError) := by
  obtain ⟨st, sd⟩ := self
  cases v with
  | vcell c => simp [PyVal.isCell] at h
  | vnone =>
    by_cases hi : isinstance .vnone st = true
    · simp [lshift, hi]
    · simp [lshift, hi]
  | vbool b =>
    by_cases hi : isinstance (.vbool b) st = true
    · simp [lshift, hi]
    · simp [lshift, hi]
  | vint n =>
    by_cases hi : isinstance (.vint n) st = true
    · simp [lshift, hi]
    · simp [lshift, hi]
  | vstr s =>
    by_cases hi : isinstance (.vstr s) st = true
    · simp [lshift, hi]
    · simp [lshift, hi]

/-- C1 witness: the amended statement applied to `Variable(int) << 3`. -/
theorem lshift_raw_isinstance_check_witness :
    lshift (Variable.mk .intT .vnone) (.vint 3) =
      if isinstance (.vint 3) (Variable.mk .intT .vnone).type then
        ((Variable.mk (Variable.mk .intT .vnone).type (.vint 3), .vint 3), none)
      else ((Variable.mk .intT .vnone, .vint 3), some .typeError) :=
  lshift_raw_isinstance_check (Variable.mk .intT .vnone) (.vint 3) rfl

/-- C2: starting from a freshly constructed cell of any declared type,
after every sequence of assign / receive-transfer operations whose
cell arguments themselves satisfy the declared-type invariant, the
cell's slot is unset or holds an instance of the declared type. -/
theorem value_always_of_declared_type (t : PyType) (ops : List Op)
    (h : ops.all opOK = true) :
    typeInv (runOps (construct t) ops) = true :=
  typeInv_runOps (construct t) ops rfl h

/-- C2 witness: an `int` cell run through a raw assign, a received
transfer, and a failing string assign keeps the invariant. -/
theorem value_always_of_declared_type_witness :
    typeInv (runOps (construct .intT)
      [.assignOp (.vint 3), .recvOp (Variable.mk .intT (.vint 5)),
       .assignOp (.vstr "x"), .assignOp (.vbool true)]) = true :=
  value_always_of_declared_type .intT
    [.assignOp (.vint 3), .recvOp (Variable.mk .intT (.vint 5)),
     .assignOp (.vstr "x"), .assignOp (.vbool true)] rfl

/-- C3 counterexample: a successful operation can take a cell from
`Set` back to `Unset`: assigning from a same-typed source cell whose
slot is unset copies the `None` sentinel, clearing the target.  Here a
`Set` `int` cell holding `3` is successfully assigned from an unset
`int` cell and ends `Unset`. -/
theorem lshift_from_unset_cell_clears_set_cell :
    (Variable.mk .intT (.vint 3)).data.isNone = false ∧
    lshift (Variable.mk .intT (.vint 3)) (.vcell (Variable.mk .intT .vnone)) =
      ((Variable.mk .intT .vnone, .vcell (Variable.mk .intT .vnone)), none) ∧
    (Variable.mk .intT .vnone).data.isNone = true :=
  ⟨rfl, rfl, rfl⟩

/-- C3 (amended): a successful transfer always leaves its target
`Set`, and a successful raw-value assign on a `Set` cell satisfying
the declared-type invariant leaves it `Set`; but an assign from a
same-typed source cell whose slot is unset succeeds and returns the
cell to `Unset` — that is the one `Set` → `Unset` transition. -/
theorem set_to_unset_only_by_cell_assign
    (a b a2 : Variable) (v : PyVal) (a3 c : Variable)
    (h1 : (rshift a b).2 = none)
    (h2 : v.isCell = false) (h3 : typeInv a2 = true)
    (h4 : a2.data.isNone = false) (h5 : (lshift a2 v).2 = none)
    (h6 : a3.type = c.type) (h7 : c.data.isNone = true) :
    ((rshift a b).1.2).data.isNone = false ∧
    ((lshift a2 v).1.1).data.isNone = false ∧
    (lshift a3 (.vcell c)).2 = none ∧
    ((lshift a3 (.vcell c)).1.1).data.isNone = true := by
  obtain ⟨at1, ad1⟩ := a
  obtain ⟨bt, bd⟩ := b
  obtain ⟨at2, ad2⟩ := a2
  obtain ⟨at3, ad3⟩ := a3
  obtain ⟨ct, cd⟩ := c
  refine ⟨?_, ?_, ?_, ?_⟩
  · by_cases ht : bt = at1
    · subst ht
      by_cases hn : ad1.isNone = true
      · simp [rshift, hn] at h1
      · simp [rshift, hn]
    · simp [rshift, ht] at h1
  · cases v with
    | vcell d => simp [PyVal.isCell] at h2
    | vnone =>
      by_cases hi : isinstance .vnone at2 = true
      · cases at2 <;> simp [isinstance] at hi
        simp only [typeInv, Variable.data_mk, Variable.type_mk] at h3
        cases ad2 <;> simp [PyVal.isNone, isinstance] at h3 h4
      · simp [lshift, hi] at h5
    | vbool b' =>
      by_cases hi : isinstance (.vbool b') at2 = true
      · simp [lshift, hi, PyVal.isNone]
      · simp [lshift, hi] at h5
    | vint n =>
      by_cases hi : isinstance (.vint n) at2 = true
      · simp [lshift, hi, PyVal.isNone]
      · simp [lshift, hi] at h5
    | vstr s =>
      by_cases hi : isinstance (.vstr s) at2 = true
      · simp [lshift, hi, PyVal.isNone]
      · simp [lshift, hi] at h5
  · simp only [Variable.type_mk] at h6
    simp [lshift, h6]
  · simp only [Variable.type_mk] at h6
    simp only [Variable.data_mk] at h7
    simp [lshift, h6, h7]

/-- C3 amended witness: a transfer of `3` between `int` cells, a raw
re-assign of a `Set` `int` cell, and a clearing cell-assign from an
unset `int` source. -/
theorem set_to_unset_only_by_cell_assign_witness :
    ((rshift (Variable.mk .intT (.vint 3)) (Variable.mk .intT .vnone)).1.2).data.isNone
        = false ∧
    ((lshift (Variable.mk .intT (.vint 7)) (.vint 4)).1.1).data.isNone = false ∧
    (lshift (Variable.mk .intT (.vint 7)) (.vcell (Variable.mk .intT .vnone))).2
        = none ∧
    ((lshift (Variable.mk .intT (.vint 7))
        (.vcell (Variable.mk .intT .vnone))).1.1).data.isNone = true :=
  set_to_unset_only_by_cell_assign
    (Variable.mk .intT (.vint 3)) (Variable.mk .intT .vnone)
    (Variable.mk .intT (.vint 7)) (.vint 4)
    (Variable.mk .intT (.vint 7)) (Variable.mk .intT .vnone)
    rfl rfl rfl rfl rfl rfl rfl

/-- C4: for cells `a`, `b` with the same declared type and `a`
initialized, `a >> b` succeeds, afterwards `b` holds `a`'s value (with
its own declared type intact) and `a` is completely unchanged. -/
theorem rshift_same_type_success (a b : Variable)
    (h1 : a.type = b.type) (h2 : a.data.isNone = false) :
    rshift a b = ((a, Variable.mk b.type a.data), none) := by
  obtain ⟨at1, ad⟩ := a
  obtain ⟨bt, bd⟩ := b
  simp only [Variable.type_mk] at h1
  simp only [Variable.data_mk] at h2
  simp [rshift, h1, h2]

/-- C4 witness: transferring `4` between two `int` cells. -/
theorem rshift_same_type_success_witness :
    rshift (Variable.mk .intT (.vint 4)) (Variable.mk .intT (.vint 9)) =
      ((Variable.mk .intT (.vint 4),
        Variable.mk (Variable.mk .intT (.vint 9)).type
          (Variable.mk .intT (.vint 4)).data), none) :=
  rshift_same_type_success (Variable.mk .intT (.vint 4))
    (Variable.mk .intT (.vint 9)) rfl rfl

/-- C5 counterexample: a transfer from an uninitialized cell does not
always raise the uninitialized error: when the declared types differ,
the type check fires first, so an unset `int` cell transferring to a
`str` cell raises `TypeError`, not `ValueError`. -/
theorem rshift_unset_mismatch_raises_typeError :
    (Variable.mk .intT .vnone).data.isNone = true ∧
    rshift (Variable.mk .intT .vnone) (Variable.mk .strT .vnone) =
      ((Variable.mk .intT .vnone, Variable.mk .strT .vnone), some .typeError) :=
  ⟨rfl, rfl⟩

/-- C5 (amended): a transfer from an uninitialized cell always fails
and never mutates the target: with `ValueError` (the uninitialized
error) when the declared types match, and with `TypeError` when they
differ, since the type check precedes the uninitialized check. -/
theorem rshift_unset_always_fails (a b a2 b2 : Variable)
    (h1 : a.data.isNone = true) (h2 : b.type = a.type)
    (h3 : a2.data.isNone = true) (h4 : b2.type ≠ a2.type) :
    rshift a b = ((a, b), some .valueError) ∧
    rshift a2 b2 = ((a2, b2), some .typeError) := by
  constructor
  · simp [rshift, h1, h2]
  · simp [rshift, h4]

/-- C5 amended witness: an unset `int` cell transferring to an `int`
cell and to a `str` cell. -/
theorem rshift_unset_always_fails_witness :
    rshift (Variable.mk .intT .vnone) (Variable.mk .intT (.vint 1)) =
      ((Variable.mk .intT .vnone, Variable.mk .intT (.vint 1)),
        some .valueError) ∧
    rshift (Variable.mk .intT .vnone) (Variable.mk .strT .vnone) =
      ((Variable.mk .intT .vnone, Variable.mk .strT .vnone),
        some .typeError) :=
  rshift_unset_always_fails (Variable.mk .intT .vnone)
    (Variable.mk .intT (.vint 1)) (Variable.mk .intT .vnone)
    (Variable.mk .strT .vnone) rfl rfl rfl (by decide)

/-- C6: atomicity on error — whenever an assign raises and whenever a
transfer raises, every cell involved is exactly as it was before the
call (declared type and value of each): in the source every `raise`
happens before the single field write. -/
theorem error_leaves_state_unchanged (a : Variable) (v : PyVal)
    (b c : Variable)
    (h1 : (lshift a v).2.isSome = true) (h2 : (rshift b c).2.isSome = true) :
    (lshift a v).1 = (a, v) ∧ (rshift b c).1 = (b, c) := by
  constructor
  · obtain ⟨at1, ad⟩ := a
    cases v with
    | vcell d =>
      obtain ⟨dt, dd⟩ := d
      by_cases hc : dt = at1
      · simp [lshift, hc] at h1
      · simp [lshift, hc]
    | vnone =>
      by_cases hi : isinstance .vnone at1 = true
      · simp [lshift, hi] at h1
      · simp [lshift, hi]
    | vbool b' =>
      by_cases hi : isinstance (.vbool b') at1 = true
      · simp [lshift, hi] at h1
      · simp [lshift, hi]
    | vint n =>
      by_cases hi : isinstance (.vint n) at1 = true
      · simp [lshift, hi] at h1
      · simp [lshift, hi]
    | vstr s =>
      by_cases hi : isinstance (.vstr s) at1 = true
      · simp [lshift, hi] at h1
      · simp [lshift, hi]
  · obtain ⟨bt, bd⟩ := b
    obtain ⟨ct2, cd⟩ := c
    by_cases ht : ct2 = bt
    · by_cases hn : bd.isNone = true
      · simp [rshift, ht, hn]
      · simp [rshift, ht, hn] at h2
    · simp [rshift, ht]

/-- C6 witness: a failing string-into-int assign and a failing
int-to-str transfer both leave the cells untouched. -/
theorem error_leaves_state_unchanged_witness :
    (lshift (Variable.mk .intT (.vint 3)) (.vstr "x")).1 =
      (Variable.mk .intT (.vint 3), .vstr "x") ∧
    (rshift (Variable.mk .intT (.vint 3)) (Variable.mk .strT .vnone)).1 =
      (Variable.mk .intT (.vint 3), Variable.mk .strT .vnone) :=
  error_leaves_state_unchanged (Variable.mk .intT (.vint 3)) (.vstr "x")
    (Variable.mk .intT (.vint 3)) (Variable.mk .strT .vnone) rfl rfl

/-- C7: assigning from another cell raises `TypeError` exactly when
the source's declared type differs from the receiver's; otherwise it
copies the source's slot into the receiver — even when that slot is
unset — and the source cell is returned exactly as it was passed. -/
theorem lshift_cell_copy (self c : Variable) :
    lshift self (.vcell c) =
      if c.type = self.type then
        ((Variable.mk self.type c.data, .vcell c), none)
      else ((self, .vcell c), some .typeError) := by
  obtain ⟨st, sd⟩ := self
  obtain ⟨ct, cd⟩ := c
  by_cases hc : ct = st
  · simp [lshift, hc]
  · simp [lshift, hc]

/-- C8 counterexample: `None` is a value of type `NoneType`, and
`Variable(NoneType)` then `<< None` succeeds, yet display yields the
uninitialized placeholder, not `str(None) = "None"`, because the slot
uses `None` as the unset sentinel. -/
theorem display_none_gives_placeholder :
    (PyVal.vnone).typeOf = PyType.noneT ∧
    (lshift (construct .noneT) .vnone).2 = none ∧
    Variable.str ((lshift (construct .noneT) .vnone).1.1) =
      "Uninitialized variable of type NoneType" ∧
    PyVal.str .vnone = "None" ∧
    Variable.str ((lshift (construct .noneT) .vnone).1.1) ≠ PyVal.str .vnone :=
  ⟨rfl, rfl, rfl, rfl, by decide⟩

/-- C8 (amended): for every type `T` and every raw value `v` whose
runtime type is exactly `T`, other than `None` and `Variable`
instances, constructing a cell of type `T`, assigning `v`, and
displaying succeeds and yields the stringified `v`. -/
theorem construct_assign_display (t : PyType) (v : PyVal)
    (h1 : v.typeOf = t) (h2 : v.isCell = false) (h3 : v.isNone = false) :
    (lshift (construct t) v).2 = none ∧
    Variable.str ((lshift (construct t) v).1.1) = PyVal.str v := by
  cases v with
  | vcell c => simp [PyVal.isCell] at h2
  | vnone => simp [PyVal.isNone] at h3
  | vbool b =>
    simp only [PyVal.typeOf] at h1
    subst h1
    simp [construct, lshift, isinstance, Variable.str, PyVal.isNone]
  | vint n =>
    simp only [PyVal.typeOf] at h1
    subst h1
    simp [construct, lshift, isinstance, Variable.str, PyVal.isNone]
  | vstr s =>
    simp only [PyVal.typeOf] at h1
    subst h1
    simp [construct, lshift, isinstance, Variable.str, PyVal.isNone]

/-- C8 witness: `Variable(int)` then `<< 3` then `str` gives `"3"`. -/
theorem construct_assign_display_witness :
    (lshift (construct .intT) (.vint 3)).2 = none ∧
    Variable.str ((lshift (construct .intT) (.vint 3)).1.1) =
      PyVal.str (.vint 3) :=
  construct_assign_display .intT (.vint 3) rfl rfl rfl

/-- C9: idempotence — when an assign succeeds, repeating it on the
resulting cell with the resulting argument gives exactly the same
final state and outcome as the single assign. -/
theorem lshift_idempotent (a : Variable) (v : PyVal)
    (h : (lshift a v).2 = none) :
    lshift ((lshift a v).1.1) ((lshift a v).1.2) = lshift a v := by
  obtain ⟨at1, ad⟩ := a
  cases v with
  | vcell c =>
    obtain ⟨ct, cd⟩ := c
    by_cases hc : ct = at1
    · simp [lshift, hc]
    · simp [lshift, hc] at h
  | vnone =>
    by_cases hi : isinstance .vnone at1 = true
    · simp [lshift, hi]
    · simp [lshift, hi] at h
  | vbool b =>
    by_cases hi : isinstance (.vbool b) at1 = true
    · simp [lshift, hi]
    · simp [lshift, hi] at h
  | vint n =>
    by_cases hi : isinstance (.vint n) at1 = true
    · simp [lshift, hi]
    · simp [lshift, hi] at h
  | vstr s =>
    by_cases hi : isinstance (.vstr s) at1 = true
    · simp [lshift, hi]
    · simp [lshift, hi] at h

/-- C9 witness: assigning `3` twice to an `int` cell equals assigning
it once. -/
theorem lshift_idempotent_witness :
    lshift ((lshift (Variable.mk .intT .vnone) (.vint 3)).1.1)
        ((lshift (Variable.mk .intT .vnone) (.vint 3)).1.2) =
      lshift (Variable.mk .intT .vnone) (.vint 3) :=
  lshift_idempotent (Variable.mk .intT .vnone) (.vint 3) rfl

/-- C10: the `isinstance(value, Variable)` branch takes precedence:
on a cell declared with type `Variable`, a `Variable` instance passed
as the assigned value would pass the raw-value `isinstance` check, yet
it is handled as a cell-to-cell copy — its own declared type is
compared with the receiver's and its inner slot is copied — so it
raises `TypeError` unless its declared type is `Variable`, and is
never stored as a raw value. -/
theorem lshift_cell_branch_precedence (self c : Variable)
    (h : self.type = .variableT) :
    isinstance (.vcell c) self.type = true ∧
    lshift self (.vcell c) =
      if c.type = .variableT then
        ((Variable.mk .variableT c.data, .vcell c), none)
      else ((self, .vcell c), some .typeError) := by
  obtain ⟨st, sd⟩ := self
  simp only [Variable.type_mk] at h
  subst h
  refine ⟨rfl, ?_⟩
  obtain ⟨ct, cd⟩ := c
  by_cases hc : ct = .variableT
  · simp [lshift, hc]
  · simp [lshift, hc]

/-- C10 witness: a `Variable`-typed cell assigned an `int`-typed cell
as a raw value raises `TypeError` instead of storing it. -/
theorem lshift_cell_branch_precedence_witness :
    isinstance (.vcell (Variable.mk .intT (.vint 3)))
        (Variable.mk .variableT .vnone).type = true ∧
    lshift (Variable.mk .variableT .vnone)
        (.vcell (Variable.mk .intT (.vint 3))) =
      if (Variable.mk .intT (.vint 3)).type = .variableT then
        ((Variable.mk .variableT (Variable.mk .intT (.vint 3)).data,
          .vcell (Variable.mk .intT (.vint 3))), none)
      else ((Variable.mk .variableT .vnone,
        .vcell (Variable.mk .intT (.vint 3))), some .typeError) :=
  lshift_cell_branch_precedence (Variable.mk .variableT .vnone)
    (Variable.mk .intT (.vint 3)) rfl

end TypeFlow
